import Mathlib

/-!
Shallow embedding of `remote_sensor_for_twitter_via_ethernet.ino`.

The sketch is a single control loop: on a debounced button press it averages
`SAMPLES_LENGTH` analog samples, formats the average into a Twitter message
with `sprintf`, posts it, and signals the outcome on two LEDs.

Modelling conventions:
* machine integers are `Nat`/`Int` with explicit `% 2^32` where the C code
  wraps (`unsigned long` arithmetic in the debounce guard);
* `long` division (`curValue / N`) is truncation toward zero, `Int.tdiv`;
* C strings are `List Char` (the text before the terminating null);
* `sprintf` with a single `%ld` conversion substitutes the decimal rendering
  of its `long` argument at the first `%ld` of the format, per the C standard;
* external collaborators (the Twitter client) are inputs: a post attempt
  yields `none` (connection failed) or `some status` (awaited status code);
* LED activity is a trace: the list of (green, red) states after each
  `digitalWrite`, in program order.
-/

namespace RemoteSensor

/-- `const int SAMPLES_LENGTH = 30;` — number of sensor samples. -/
def SAMPLES_LENGTH : Nat := 30

/-- `const long SAMPLE_DELAY = 20;` — delay (ms) between samples. -/
def SAMPLE_DELAY : Nat := 20

/-- `const int BLINK_TIMES = 10;` — number of times a led will blink. -/
def BLINK_TIMES : Nat := 10

/-- `const long LED_DELAY = 30;` — delay (ms) per blink phase. -/
def LED_DELAY : Nat := 30

/-- `const long BOUNCE_DURATION = 200;` — button bounce time (ms). -/
def BOUNCE_DURATION : Nat := 200

/-- Modulus of the AVR `unsigned long` (32 bits), the type of `millis()`. -/
def UL_WRAP : Nat := 4294967296

/-- `getSensorValue(pin, N, time)`: sums `N` analog reads into a `long`
and returns `curValue / N`, C `long` division (truncation toward zero).
The reads are modelled as the input list `samples`. -/
def getSensorValue (samples : List Int) (N : Nat) : Int :=
  (samples.foldl (· + ·) 0).tdiv (N : Int)

/-- Decimal digit characters of `n`, most significant first, empty for `n = 0`.
Fuel-based so the kernel can evaluate it; `fuel = n` always suffices. -/
def decCharsAux : Nat → Nat → List Char
  | 0, _ => []
  | fuel + 1, n =>
    if n = 0 then [] else decCharsAux fuel (n / 10) ++ [Char.ofNat (48 + n % 10)]

/-- Decimal rendering of a natural number, as `printf` renders it. -/
def natDecChars (n : Nat) : List Char :=
  if n = 0 then ['0'] else decCharsAux n n

/-- Decimal rendering of a `long`, per `%ld`: a leading `-` for negatives,
then the digits of the magnitude. -/
def longDecChars (x : Int) : List Char :=
  if x < 0 then '-' :: natDecChars (-x).toNat else natDecChars x.toNat

/-- `sprintf(buf, fmt, x)` restricted to formats whose only conversion is
`%ld`, as used by `buildTwitterMsg`: the first `%ld` is replaced by the
decimal rendering of `x`, every other character is copied. -/
def substLd : List Char → Int → List Char
  | [], _ => []
  | '%' :: 'l' :: 'd' :: rest, x => longDecChars x ++ rest
  | c :: rest, x => c :: substLd rest x

/-- `const char * const twitterMsgFormat = "Sensor Value: %ld.\0";` —
as a C string its content runs to the first null. -/
def twitterMsgFormat : List Char := "Sensor Value: %ld.".toList

/-- `static const int TWITTER_MSG_LENGTH = 256;` — capacity of the
message buffer inside `buildTwitterMsg`. -/
def TWITTER_MSG_LENGTH : Nat := 256

/-- `buildTwitterMsg(sensorValue, msgFormat)`: `sprintf`s the value into the
static 256-byte buffer and returns it. The result models the buffer's
content up to the terminating null. -/
def buildTwitterMsg (sensorValue : Int) (msgFormat : List Char) : List Char :=
  substLd msgFormat sensorValue

/-- `sendTwitterMsg(twitterMsg)`: posts the message; if the connection
succeeds (`twitter.post` true) it awaits the status code and returns
whether it is 200, otherwise returns false. The network outcome is the
input `resp`: `none` for a failed connection, `some status` otherwise. -/
def sendTwitterMsg (twitterMsg : List Char) (resp : Option Int) : Bool :=
  match resp with
  | some status => if status = 200 then true else false
  | none => false

/-- `static const int IPV4_DOTTED_LENGTH = 16;` — buffer size in
`ipV4ToDottedStyle`. -/
def IPV4_DOTTED_LENGTH : Nat := 16

/-- `ipV4ToDottedStyle(ipAddr)`: `sprintf(buf, "%d.%d.%d.%d\0", a,b,c,d)`
on the four octets of the address. -/
def ipV4ToDottedStyle (a b c d : Nat) : List Char :=
  natDecChars a ++ '.' :: natDecChars b ++ '.' :: natDecChars c
    ++ '.' :: natDecChars d

/-- C `unsigned long` subtraction `now - last`, modulo `2^32`. -/
def subUL (now last : Nat) : Nat :=
  (now + (UL_WRAP - last % UL_WRAP)) % UL_WRAP

/-- Arduino's `abs` macro `((x)>0?(x):-(x))` applied to an `unsigned long`:
the comparison and negation are unsigned, so this is the identity on
values below `2^32`. -/
def absUL (x : Nat) : Nat :=
  if 0 < x then x else (UL_WRAP - x) % UL_WRAP

/-- The debounce guard of `loop()`:
`abs(millis() - bounceTime) > BOUNCE_DURATION`, with `millis()` and the
subtraction in `unsigned long` arithmetic (`BOUNCE_DURATION` is converted
to `unsigned long` by the usual arithmetic conversions). -/
def debounceAccept (now bounceTime : Nat) : Bool :=
  decide (BOUNCE_DURATION < absUL (subUL now bounceTime))

/-- State of the two indicator LEDs after a `digitalWrite`. -/
structure LedState where
  green : Bool
  red : Bool
deriving DecidableEq, Repr

/-- `blinkLed(pin, times, time)`: each loop iteration writes HIGH then LOW
to the pin; the trace is the pin's state after each write. -/
def blinkLed : Nat → List Bool
  | 0 => []
  | times + 1 => true :: false :: blinkLed times

/-- LED-pair trace of `blinkLed(ledGreenPin, times, _)` while the red LED
holds state `r`. -/
def blinkGreen (r : Bool) (times : Nat) : List LedState :=
  (blinkLed times).map (fun b => ⟨b, r⟩)

/-- LED-pair trace of `blinkLed(ledRedPin, times, _)` while the green LED
holds state `g`. -/
def blinkRed (g : Bool) (times : Nat) : List LedState :=
  (blinkLed times).map (fun b => ⟨g, b⟩)

/-- Per-iteration environment of `loop()`: the button level read at
`digitalRead(buttonPin)`, `millis()` at the debounce check, the analog
samples `getSensorValue` would read, the Twitter response, and `millis()`
at the `bounceTime = millis()` update. -/
structure IterEnv where
  pressed : Bool
  now : Nat
  samples : List Int
  resp : Option Int
  endTime : Nat

/-- Observable result of one `loop()` iteration: the new `bounceTime`, the
LED trace (state after each `digitalWrite`, in program order, starting from
LED state `s0` at entry), and the message handed to the Twitter client,
if any. -/
structure IterOut where
  bounce : Nat
  leds : List LedState
  sent : Option (List Char)

/-- One iteration of `loop()` (the DHCP maintenance call has no observable
effect in this model): dark both LEDs; if the button is pressed and the
debounce guard passes, light red, sample, format, send, then on success
dark red and blink green, on failure blink red, and finally set
`bounceTime = millis()`. -/
def loopIter (bounceTime : Nat) (env : IterEnv) (s0 : LedState) : IterOut :=
  let s1 : LedState := ⟨s0.green, false⟩
  let s2 : LedState := ⟨false, false⟩
  if env.pressed && debounceAccept env.now bounceTime then
    let s3 : LedState := ⟨false, true⟩
    let msg := buildTwitterMsg (getSensorValue env.samples SAMPLES_LENGTH)
      twitterMsgFormat
    if sendTwitterMsg msg env.resp then
      { bounce := env.endTime
        leds := [s1, s2, s3, ⟨false, false⟩] ++ blinkGreen false BLINK_TIMES
        sent := some msg }
    else
      { bounce := env.endTime
        leds := [s1, s2, s3] ++ blinkRed false BLINK_TIMES
        sent := some msg }
  else
    { bounce := bounceTime, leds := [s1, s2], sent := none }

/-- The spec's "base-10 decimal rendering" of a natural number, stated
through Mathlib's `Nat.digits`: the decimal digits, most significant
first; `0` renders as `"0"`. -/
def natRendering (n : Nat) : List Char :=
  if n = 0 then ['0']
  else (Nat.digits 10 n).reverse.map fun d => Char.ofNat (48 + d)

/-- The spec's "base-10 decimal rendering" of an integer: a leading `-`
for negatives, then the decimal digits of the magnitude. -/
def decimalRendering (x : Int) : List Char :=
  if x < 0 then '-' :: natRendering (-x).toNat else natRendering x.toNat

/-! ### Helper lemmas about the decimal rendering -/

theorem decCharsAux_length (fuel : Nat) :
    ∀ n k : Nat, n < 10 ^ k → (decCharsAux fuel n).length ≤ k := by
  induction fuel with
  | zero => intro n k _; simp [decCharsAux]
  | succ fuel ih =>
    intro n k hk
    by_cases hn : n = 0
    · simp [decCharsAux, hn]
    · cases k with
      | zero =>
        exact absurd (Nat.lt_one_iff.mp (by simpa using hk)) hn
      | succ j =>
        have hdiv : n / 10 < 10 ^ j := by
          apply Nat.div_lt_of_lt_mul
          calc n < 10 ^ (j + 1) := hk
            _ = 10 * 10 ^ j := by ring
        simp only [decCharsAux, hn, if_false, List.length_append,
          List.length_singleton]
        have := ih (n / 10) j hdiv
        omega

theorem decCharsAux_digits (fuel : Nat) :
    ∀ n : Nat, n ≤ fuel →
      decCharsAux fuel n
        = (Nat.digits 10 n).reverse.map fun d => Char.ofNat (48 + d) := by
  induction fuel with
  | zero =>
    intro n hn
    have : n = 0 := Nat.le_zero.mp hn
    simp [this, decCharsAux]
  | succ fuel ih =>
    intro n hn
    by_cases h0 : n = 0
    · simp [h0, decCharsAux]
    · have hrec : n / 10 ≤ fuel := by
        have : n / 10 < n := Nat.div_lt_self (Nat.pos_of_ne_zero h0) (by norm_num)
        omega
      rw [Nat.digits_def' (by norm_num : 1 < 10) (Nat.pos_of_ne_zero h0)]
      simp only [decCharsAux, h0, if_false, List.reverse_cons, List.map_append,
        List.map_cons, List.map_nil]
      rw [ih (n / 10) hrec]

theorem natDecChars_length {n k : Nat} (hk : n < 10 ^ k) (hpos : 0 < k) :
    (natDecChars n).length ≤ k := by
  by_cases h0 : n = 0
  · simpa [natDecChars, h0] using hpos
  · simpa [natDecChars, h0] using decCharsAux_length n n k hk

theorem longDecChars_length {x : Int} (h1 : -(2 ^ 31) ≤ x) (h2 : x < 2 ^ 31) :
    (longDecChars x).length ≤ 11 := by
  by_cases hneg : x < 0
  · have hmag : (-x).toNat < 10 ^ 10 := by
      have : -x ≤ 2 ^ 31 := by omega
      have h31 : (2 ^ 31 : Int) < 10 ^ 10 := by norm_num
      omega
    simp only [longDecChars, hneg, if_true, List.length_cons]
    have := natDecChars_length hmag (by norm_num)
    omega
  · have hmag : x.toNat < 10 ^ 10 := by
      have h31 : (2 ^ 31 : Int) < 10 ^ 10 := by norm_num
      omega
    simp only [longDecChars, hneg, if_false]
    have := natDecChars_length hmag (by norm_num)
    omega

theorem natDecChars_renders (n : Nat) : natDecChars n = natRendering n := by
  by_cases h0 : n = 0
  · simp [natDecChars, natRendering, h0]
  · simp [natDecChars, natRendering, h0, decCharsAux_digits n n (le_refl n)]

theorem longDecChars_renders (x : Int) : longDecChars x = decimalRendering x := by
  by_cases hneg : x < 0 <;>
    simp [longDecChars, decimalRendering, hneg, natDecChars_renders]

/-! ### Claim theorems -/

/-- C1: for every sample sequence of length `N = SAMPLES_LENGTH` with
values in the ADC range returned by the analog reads,
`getSensorValue(pin, N, time)` returns `floor(sum(v_i) / N)`, and that
floor is computed by the code's truncating (toward-zero) integer
division — the two divisions agree because the sum is nonnegative. -/
theorem getSensorValue_avg (samples : List Int)
    (hlen : samples.length = SAMPLES_LENGTH)
    (hrange : ∀ v ∈ samples, 0 ≤ v ∧ v ≤ 1023) :
    getSensorValue samples SAMPLES_LENGTH
        = Int.tdiv samples.sum (SAMPLES_LENGTH : Int) ∧
    getSensorValue samples SAMPLES_LENGTH
        = Int.fdiv samples.sum (SAMPLES_LENGTH : Int) := by
  have hfold : samples.foldl (· + ·) 0 = samples.sum :=
    List.sum_eq_foldl.symm
  have hsum : 0 ≤ samples.sum :=
    List.sum_nonneg fun a ha => (hrange a ha).1
  constructor
  · simp [getSensorValue, hfold]
  · simp only [getSensorValue, hfold]
    rw [Int.fdiv_eq_tdiv hsum (by norm_num [SAMPLES_LENGTH])]

theorem getSensorValue_avg_witness :
    getSensorValue (List.replicate 30 7) SAMPLES_LENGTH
        = Int.tdiv (List.replicate 30 (7 : Int)).sum (SAMPLES_LENGTH : Int) ∧
    getSensorValue (List.replicate 30 7) SAMPLES_LENGTH
        = Int.fdiv (List.replicate 30 (7 : Int)).sum (SAMPLES_LENGTH : Int) :=
  getSensorValue_avg (List.replicate 30 7) (by decide) (by decide)

/-- C2: for every integer representable in the platform's 32-bit `long`,
`buildTwitterMsg(x, twitterMsgFormat)` yields a (null-terminated) text
strictly shorter than the 256-byte capacity whose content is the template
with its single `%ld` placeholder replaced by the base-10 decimal
rendering of `x`, with a leading `-` for negative `x`. -/
theorem buildTwitterMsg_correct (x : Int)
    (h1 : -(2 ^ 31) ≤ x) (h2 : x < 2 ^ 31) :
    (buildTwitterMsg x twitterMsgFormat).length < TWITTER_MSG_LENGTH ∧
    buildTwitterMsg x twitterMsgFormat
      = "Sensor Value: ".toList ++ decimalRendering x ++ ['.'] := by
  have hcontent : buildTwitterMsg x twitterMsgFormat
      = "Sensor Value: ".toList ++ longDecChars x ++ ['.'] := rfl
  constructor
  · rw [hcontent]
    have h14 : ("Sensor Value: ".toList).length = 14 := rfl
    have h11 := longDecChars_length h1 h2
    simp only [List.length_append, List.length_singleton, h14,
      TWITTER_MSG_LENGTH]
    omega
  · rw [hcontent, longDecChars_renders]

theorem buildTwitterMsg_correct_witness :
    (buildTwitterMsg (-2147483648) twitterMsgFormat).length < TWITTER_MSG_LENGTH ∧
    buildTwitterMsg (-2147483648) twitterMsgFormat
      = "Sensor Value: ".toList ++ decimalRendering (-2147483648) ++ ['.'] :=
  buildTwitterMsg_correct (-2147483648) (by decide) (by decide)

/-- C3: `sendTwitterMsg(message)` returns true iff the post call connects
and the awaited status code equals 200; a non-200 status and a failed
connection both yield false. -/
theorem sendTwitterMsg_success_iff (twitterMsg : List Char) (resp : Option Int) :
    sendTwitterMsg twitterMsg resp = true
      ↔ ∃ status : Int, resp = some status ∧ status = 200 := by
  cases resp with
  | none => simp [sendTwitterMsg]
  | some status => by_cases h : status = 200 <;> simp [sendTwitterMsg, h]

/-- C4: after a first trigger attempt at time `t` is accepted and the
stored debounce time is updated (at some instant `tSet` between `t` and
the second attempt), a second attempt at `t + d` with `d ≤ BOUNCE_DURATION`
is rejected by the debounce guard, so exactly one of the two attempts is
accepted and the second press never starts a sampling/delivery cycle. -/
theorem debounce_second_press_rejected (lastAcc t tSet d : Nat)
    (hfirst : debounceAccept t lastAcc = true)
    (hs1 : t ≤ tSet) (hs2 : tSet ≤ t + d)
    (hd : d ≤ BOUNCE_DURATION) (hw : t + d < UL_WRAP) :
    debounceAccept (t + d) tSet = false ∧
    cond (debounceAccept t lastAcc) 1 0
      + cond (debounceAccept (t + d) tSet) 1 0 = 1 := by
  have hsub : subUL (t + d) tSet = t + d - tSet := by
    simp only [subUL, UL_WRAP] at *
    omega
  have habs : absUL (subUL (t + d) tSet) = t + d - tSet := by
    rw [hsub]
    simp only [absUL, UL_WRAP] at *
    split <;> omega
  have hrej : debounceAccept (t + d) tSet = false := by
    simp only [debounceAccept, habs, BOUNCE_DURATION] at *
    simp only [decide_eq_false_iff_not]
    omega
  exact ⟨hrej, by rw [hfirst, hrej]; rfl⟩

theorem debounce_second_press_rejected_witness :
    debounceAccept (1000 + 50) 1020 = false ∧
    cond (debounceAccept 1000 0) 1 0
      + cond (debounceAccept (1000 + 50) 1020) 1 0 = 1 :=
  debounce_second_press_rejected 0 1000 1020 50 (by decide) (by decide)
    (by decide) (by decide) (by decide)

/-- C5: for every stored trigger time and every elapsed duration below the
32-bit wrap period, the debounce guard accepts the new trigger read at
`(last + elapsed) % 2^32` — i.e. even across a `millis()` wraparound — iff
the elapsed time exceeds `BOUNCE_DURATION`: the unsigned subtraction makes
the comparison wraparound-tolerant (Arduino's `abs` macro is the identity
on the unsigned difference). -/
theorem debounce_tolerates_wraparound (last elapsed : Nat)
    (hlast : last < UL_WRAP) (he : elapsed < UL_WRAP) :
    debounceAccept ((last + elapsed) % UL_WRAP) last = true
      ↔ BOUNCE_DURATION < elapsed := by
  have hsub : subUL ((last + elapsed) % UL_WRAP) last = elapsed := by
    simp only [subUL, UL_WRAP] at *
    omega
  have habs : absUL (subUL ((last + elapsed) % UL_WRAP) last) = elapsed := by
    rw [hsub]
    simp only [absUL, UL_WRAP] at *
    split <;> omega
  simp [debounceAccept, habs]

theorem debounce_tolerates_wraparound_witness :
    debounceAccept ((4294967196 + 300) % UL_WRAP) 4294967196 = true :=
  (debounce_tolerates_wraparound 4294967196 300 (by decide) (by decide)).mpr
    (by decide)

/-- C9: the averaging division can never divide by zero: the sample count
is the compile-time constant `SAMPLES_LENGTH = 30 ≥ 1`, and every message
the control loop builds comes from `getSensorValue` called with exactly
that count. -/
theorem getSensorValue_divisor_nonzero :
    0 < SAMPLES_LENGTH ∧ SAMPLES_LENGTH = 30 ∧
    ∀ (bounceTime : Nat) (env : IterEnv) (s0 : LedState),
      (loopIter bounceTime env s0).sent = none ∨
      (loopIter bounceTime env s0).sent
        = some (buildTwitterMsg (getSensorValue env.samples SAMPLES_LENGTH)
            twitterMsgFormat) := by
  refine ⟨by norm_num [SAMPLES_LENGTH], rfl, ?_⟩
  intro bounceTime env s0
  simp only [loopIter]
  split
  · split
    · right; rfl
    · right; rfl
  · left; rfl

/-- C10: for every 4-byte IPv4 address, `ipV4ToDottedStyle` renders the
four octets in decimal joined by dots, in at most 15 characters, so the
null-terminated text fits the 16-byte static buffer. -/
theorem ipV4ToDottedStyle_correct (a b c d : Nat)
    (ha : a ≤ 255) (hb : b ≤ 255) (hc : c ≤ 255) (hd : d ≤ 255) :
    (ipV4ToDottedStyle a b c d).length ≤ 15 ∧
    (ipV4ToDottedStyle a b c d).length + 1 ≤ IPV4_DOTTED_LENGTH ∧
    ipV4ToDottedStyle a b c d
      = natRendering a ++ '.' :: natRendering b ++ '.' :: natRendering c
          ++ '.' :: natRendering d := by
  have la : (natDecChars a).length ≤ 3 :=
    natDecChars_length (by omega) (by norm_num)
  have lb : (natDecChars b).length ≤ 3 :=
    natDecChars_length (by omega) (by norm_num)
  have lc : (natDecChars c).length ≤ 3 :=
    natDecChars_length (by omega) (by norm_num)
  have ld : (natDecChars d).length ≤ 3 :=
    natDecChars_length (by omega) (by norm_num)
  have hlen : (ipV4ToDottedStyle a b c d).length ≤ 15 := by
    simp only [ipV4ToDottedStyle, List.length_append, List.length_cons]
    omega
  refine ⟨hlen, by simp only [IPV4_DOTTED_LENGTH]; omega, ?_⟩
  simp only [ipV4ToDottedStyle, natDecChars_renders]

theorem ipV4ToDottedStyle_correct_witness :
    (ipV4ToDottedStyle 255 255 255 255).length ≤ 15 ∧
    (ipV4ToDottedStyle 255 255 255 255).length + 1 ≤ IPV4_DOTTED_LENGTH ∧
    ipV4ToDottedStyle 255 255 255 255
      = natRendering 255 ++ '.' :: natRendering 255 ++ '.' :: natRendering 255
          ++ '.' :: natRendering 255 :=
  ipV4ToDottedStyle_correct 255 255 255 255 (by decide) (by decide)
    (by decide) (by decide)

/-- C6: at no observable instant during a loop iteration are the green
and red indicators lit simultaneously; on a successful delivery the trace
shows the red indicator darkened before the green one starts blinking,
and the red indicator stays dark throughout the green blink. -/
theorem loopIter_indicator_exclusion (bounceTime : Nat) (env : IterEnv)
    (s0 : LedState) :
    (∀ st ∈ (loopIter bounceTime env s0).leds,
      ¬(st.green = true ∧ st.red = true)) ∧
    ((env.pressed && debounceAccept env.now bounceTime) = true →
      sendTwitterMsg
          (buildTwitterMsg (getSensorValue env.samples SAMPLES_LENGTH)
            twitterMsgFormat) env.resp = true →
      (loopIter bounceTime env s0).leds
        = [⟨s0.green, false⟩, ⟨false, false⟩, ⟨false, true⟩, ⟨false, false⟩]
            ++ blinkGreen false BLINK_TIMES ∧
      ∀ st ∈ blinkGreen false BLINK_TIMES, st.red = false) := by
  obtain ⟨g0, r0⟩ := s0
  cases hcond : env.pressed && debounceAccept env.now bounceTime with
  | false =>
    constructor
    · simp only [loopIter, hcond, Bool.false_eq_true, if_false]
      cases g0 <;> decide
    · intro h
      exact absurd h (by decide)
  | true =>
    cases hsend : sendTwitterMsg
        (buildTwitterMsg (getSensorValue env.samples SAMPLES_LENGTH)
          twitterMsgFormat) env.resp with
    | false =>
      constructor
      · simp only [loopIter, hcond, if_true, hsend, Bool.false_eq_true,
          if_false]
        cases g0 <;> decide
      · intro _ h
        exact absurd h (by decide)
    | true =>
      constructor
      · simp only [loopIter, hcond, if_true, hsend]
        cases g0 <;> decide
      · intro _ _
        constructor
        · simp only [loopIter, hcond, if_true, hsend]
        · decide

theorem loopIter_indicator_exclusion_witness :
    (loopIter 0 ⟨true, 1000, List.replicate 30 100, some 200, 2000⟩
        ⟨false, false⟩).leds
      = [⟨false, false⟩, ⟨false, false⟩, ⟨false, true⟩, ⟨false, false⟩]
          ++ blinkGreen false BLINK_TIMES ∧
    ∀ st ∈ blinkGreen false BLINK_TIMES, st.red = false :=
  (loopIter_indicator_exclusion 0
      ⟨true, 1000, List.replicate 30 100, some 200, 2000⟩ ⟨false, false⟩).2
    (by decide) (by decide)

/-- C7: `bounceTime` is the only state the loop carries across iterations,
and it is written during an iteration iff the trigger was accepted: on a
debounce rejection the iteration leaves `bounceTime` unchanged, performs
no indicator change beyond the initial darkening, and sends nothing; on
accept the stored time is updated to the `millis()` reading taken at the
end of the handler. -/
theorem loopIter_frame (bounceTime : Nat) (env : IterEnv) (s0 : LedState) :
    ((env.pressed && debounceAccept env.now bounceTime) = true →
      (loopIter bounceTime env s0).bounce = env.endTime) ∧
    ((env.pressed && debounceAccept env.now bounceTime) = false →
      (loopIter bounceTime env s0).bounce = bounceTime ∧
      (loopIter bounceTime env s0).leds
        = [⟨s0.green, false⟩, ⟨false, false⟩] ∧
      (loopIter bounceTime env s0).sent = none) := by
  constructor
  · intro h
    simp only [loopIter, h, if_true]
    split <;> rfl
  · intro h
    simp [loopIter, h]

theorem loopIter_frame_witness :
    (loopIter 0 ⟨true, 1000, [], none, 5⟩ ⟨false, false⟩).bounce = 5 ∧
    (loopIter 7 ⟨false, 0, [], none, 5⟩ ⟨false, false⟩).bounce = 7 ∧
    (loopIter 7 ⟨false, 0, [], none, 5⟩ ⟨false, false⟩).sent = none :=
  ⟨(loopIter_frame 0 ⟨true, 1000, [], none, 5⟩ ⟨false, false⟩).1 (by decide),
   ((loopIter_frame 7 ⟨false, 0, [], none, 5⟩ ⟨false, false⟩).2
       (by decide)).1,
   ((loopIter_frame 7 ⟨false, 0, [], none, 5⟩ ⟨false, false⟩).2
       (by decide)).2.2⟩

/-- C8 (counterexample): in the end-to-end run where all 30 samples read
100 and the delivery outcome is status 200, the message handed to the
delivery client is not `"Sensor Value: 100"` — the code's template
`"Sensor Value: %ld."` appends a trailing period. -/
theorem endToEnd_scenario1_message_ne :
    (loopIter 0 ⟨true, 1000, List.replicate 30 100, some 200, 2000⟩
        ⟨false, false⟩).sent
      ≠ some ("Sensor Value: 100".toList) := by
  decide

/-- C8 (amended): in the end-to-end run where all 30 samples read 100 and
the delivery outcome is status 200, the computed average is 100, the
message sent to the delivery client is `"Sensor Value: 100."`, the green
indicator blinks exactly `BLINK_TIMES = 10` times, and the red indicator
is never lit after delivery. -/
theorem endToEnd_scenario1 :
    getSensorValue (List.replicate 30 100) SAMPLES_LENGTH = 100 ∧
    (loopIter 0 ⟨true, 1000, List.replicate 30 100, some 200, 2000⟩
        ⟨false, false⟩).sent
      = some ("Sensor Value: 100.".toList) ∧
    ((loopIter 0 ⟨true, 1000, List.replicate 30 100, some 200, 2000⟩
        ⟨false, false⟩).leds.filter (fun st => st.green)).length
      = BLINK_TIMES ∧
    ∀ st ∈ (loopIter 0 ⟨true, 1000, List.replicate 30 100, some 200, 2000⟩
        ⟨false, false⟩).leds.drop 3, st.red = false := by
  decide

end RemoteSensor
